import Mathlib

/-!
Verification development for the QRIS invoice backend.

The repository is a single Express server (embedded in `src/README.md`,
lines 218-565) exposing four invoice operations over a Mongoose/MongoDB
collection: create (POST /api/invoices), get by number
(GET /api/invoices/:invoiceNumber), paginated list (GET /api/invoices)
and delete (DELETE /api/invoices/:invoiceNumber).

This file gives a shallow embedding of the data model, the four request
handlers and their error branches, and proves the frozen claims about
them.  The document store is modelled as a list of stored documents in
insertion order; the store-level primitives the server relies on
(findOne, findOneAndDelete, unique index on `invoiceNumber`,
sort/skip/limit) are modelled as the corresponding pure list operations.
The internal document id (`_id`) and the clock (`Date.now`) are passed
to the create handler as explicit parameters.
-/

namespace QrisBackend

/-! ### JavaScript number and parseInt model

The list handler applies JavaScript's `parseInt` to the `limit` and
`skip` query parameters.  `parseInt` returns NaN when the string has no
leading integer; NaN propagates through `+` and makes every `<`
comparison false.  We model just that fragment of JS numbers. -/

/-- A JavaScript number as the list handler can observe it: either NaN
(from a failed `parseInt`) or an integer. -/
inductive JsNum where
  | nan : JsNum
  | int (n : Int) : JsNum
deriving DecidableEq

/-- JavaScript `+` on our number fragment: NaN is absorbing. -/
def jsAdd : JsNum → JsNum → JsNum
  | JsNum.int a, JsNum.int b => JsNum.int (a + b)
  | _, _ => JsNum.nan

/-- JavaScript `<` on our number fragment: any comparison with NaN is
false. -/
def jsLt : JsNum → JsNum → Bool
  | JsNum.int a, JsNum.int b => decide (a < b)
  | _, _ => false

/-- Digit run of a decimal literal to a natural number. -/
def digitsToNat (ds : List Char) : Nat :=
  ds.foldl (fun acc c => acc * 10 + (c.toNat - 48)) 0

/-- Parse a leading run of decimal digits; NaN when there is none. -/
def parseDigits (cs : List Char) : JsNum :=
  let ds := cs.takeWhile Char.isDigit
  if ds.isEmpty then JsNum.nan else JsNum.int (digitsToNat ds)

/-- JavaScript whitespace characters `parseInt` skips (the common
ASCII ones; exotic unicode spaces are not needed for any claim). -/
def isJsSpace (c : Char) : Bool :=
  c = ' ' || c = '\t' || c = '\n' || c = '\r'

/-- Model of JavaScript `parseInt(s)` (radix 10; the `0x` radix prefix
is not modelled, no claim depends on it): skip leading whitespace, an
optional sign, then a leading digit run; NaN when no digits follow. -/
def parseIntJS (s : String) : JsNum :=
  match s.data.dropWhile isJsSpace with
  | '-' :: rest =>
      match parseDigits rest with
      | JsNum.int n => JsNum.int (-n)
      | JsNum.nan => JsNum.nan
  | '+' :: rest => parseDigits rest
  | cs => parseDigits cs

/-! ### Data model (Invoice schema, README lines 271-317) -/

/-- `merchantInfo` subdocument: optional name/location pair. -/
structure MerchantInfo where
  name : Option String
  location : Option String
deriving DecidableEq

/-- `customerInfo` subdocument: `name` required by the schema, the
rest optional.  Absence is `none`. -/
structure CustomerInfo where
  name : Option String
  email : Option String
  phone : Option String
  address : Option String
deriving DecidableEq

/-- `invoiceDetails` subdocument (all fields optional). -/
structure InvoiceDetails where
  invoiceNumber : Option String
  date : Option String
  dueDate : Option String
  notes : Option String
deriving DecidableEq

/-- A line item as it arrives in the request payload; every field may
be absent.  Amounts are modelled as integers: no claim depends on
fractional values. -/
structure Item where
  id : Option String
  name : Option String
  quantity : Option Int
  price : Option Int
  total : Option Int
deriving DecidableEq

/-- The `items` member of a create payload as the handler can observe
it: absent (or another falsy value), present but not an array, or an
array of items.  The guard `!items || !Array.isArray(items) ||
items.length === 0` accepts exactly a non-empty array. -/
inductive ItemsField where
  | absent : ItemsField
  | notArray : ItemsField
  | array (xs : List Item) : ItemsField
deriving DecidableEq

/-- The JSON body of a create request, with one optional member per
schema field a client can send.  `createdAt`/`updatedAt` are
server-assigned and not part of the client payload. -/
structure CreatePayload where
  invoiceNumber : Option String
  merchantInfo : Option MerchantInfo
  customerInfo : Option CustomerInfo
  invoiceDetails : Option InvoiceDetails
  items : ItemsField
  serviceFee : Option String
  feeType : Option String
  feeValue : Option String
  subtotal : Option Int
  serviceFeeAmount : Option Int
  total : Option Int
  dynamicQRCode : Option String
deriving DecidableEq

/-- A stored line item after Mongoose casting (required fields are
present once validation passed; `getD` defaults only paper over cases
validation rejects). -/
structure StoredItem where
  id : Option String
  name : String
  quantity : Int
  price : Int
  total : Int
deriving DecidableEq

/-- A stored invoice document, mirroring the Mongoose schema.
`mongoId` stands for the Mongo-assigned `_id`; timestamps are modelled
as naturals. -/
structure StoredInvoice where
  mongoId : Nat
  invoiceNumber : String
  merchantInfo : Option MerchantInfo
  customerInfo : CustomerInfo
  invoiceDetails : Option InvoiceDetails
  items : List StoredItem
  serviceFee : Option String
  feeType : Option String
  feeValue : Option String
  subtotal : Int
  serviceFeeAmount : Int
  total : Int
  dynamicQRCode : Option String
  createdAt : Nat
  updatedAt : Nat
deriving DecidableEq

/-- The invoice collection, in insertion (natural) order. -/
structure Store where
  docs : List StoredInvoice
deriving DecidableEq

/-- The invoice numbers currently stored, in natural order. -/
def invoiceNumbers (s : Store) : List String :=
  s.docs.map (fun d => d.invoiceNumber)

/-- Model of `Invoice.findOne({ invoiceNumber })`: the first stored
document with the given number. -/
def findByNumber (n : String) (s : Store) : Option StoredInvoice :=
  s.docs.find? (fun d => d.invoiceNumber == n)

/-! ### Validation (handler guards and Mongoose schema validation) -/

/-- JavaScript truthiness of an optional string member: absent and the
empty string are falsy. -/
def truthyStr : Option String → Bool
  | none => false
  | some s => !(s == "")

/-- The first guard of the create handler (README lines 366-371):
`!invoiceData.invoiceNumber || !invoiceData.customerInfo?.name`. -/
def requiredFieldsOk (p : CreatePayload) : Bool :=
  truthyStr p.invoiceNumber && truthyStr (p.customerInfo.bind (fun c => c.name))

/-- The items guard of the create handler (README lines 374-379):
passes exactly when `items` is a non-empty array. -/
def itemsOk : ItemsField → Bool
  | ItemsField.array xs => !xs.isEmpty
  | _ => false

/-- Mongoose validation of one item (schema lines 294-300): `name`
required (non-empty string), `quantity` required with `min: 1`,
`price` and `total` required with `min: 0`. -/
def validItem (it : Item) : Bool :=
  truthyStr it.name
    && (match it.quantity with | some q => decide (1 ≤ q) | none => false)
    && (match it.price with | some v => decide (0 ≤ v) | none => false)
    && (match it.total with | some v => decide (0 ≤ v) | none => false)

/-- Mongoose schema validation run by `invoice.save()` (README lines
271-317): required fields present, every item valid, `subtotal` and
`total` present with `min: 0`, `serviceFeeAmount` (default 0) with
`min: 0`. -/
def mongooseValid (p : CreatePayload) : Bool :=
  truthyStr p.invoiceNumber
    && truthyStr (p.customerInfo.bind (fun c => c.name))
    && (match p.items with
        | ItemsField.array xs => xs.all validItem
        | _ => false)
    && (match p.subtotal with | some v => decide (0 ≤ v) | none => false)
    && (match p.total with | some v => decide (0 ≤ v) | none => false)
    && decide (0 ≤ (match p.serviceFeeAmount with | some v => v | none => 0))

/-! ### Building the stored document -/

/-- Cast a payload item to its stored form (defined only up to the
defaults on fields validation guarantees present). -/
def mkStoredItem (it : Item) : StoredItem :=
  { id := it.id
    name := it.name.getD ""
    quantity := it.quantity.getD 0
    price := it.price.getD 0
    total := it.total.getD 0 }

/-- The document `new Invoice(invoiceData)` builds and `save()`
persists: payload fields copied, `serviceFeeAmount` defaulted to 0,
`createdAt` defaulted to `Date.now`, and `updatedAt` set to `Date.now`
by the pre-save hook (README lines 308-323). -/
def mkDoc (newId now : Nat) (p : CreatePayload) : StoredInvoice :=
  { mongoId := newId
    invoiceNumber := p.invoiceNumber.getD ""
    merchantInfo := p.merchantInfo
    customerInfo := p.customerInfo.getD { name := none, email := none, phone := none, address := none }
    invoiceDetails := p.invoiceDetails
    items := (match p.items with | ItemsField.array xs => xs.map mkStoredItem | _ => [])
    serviceFee := p.serviceFee
    feeType := p.feeType
    feeValue := p.feeValue
    subtotal := p.subtotal.getD 0
    serviceFeeAmount := p.serviceFeeAmount.getD 0
    total := p.total.getD 0
    dynamicQRCode := p.dynamicQRCode
    createdAt := now
    updatedAt := now }

/-! ### Responses

Each handler answers with one JSON object; absent members are `none`.
`details` on 500 responses depends on `NODE_ENV` (the `env` argument):
the server compares it to the literal `"development"`, so any other
value — including an unset variable — behaves as production-like. -/

/-- Response of the create handler (status plus the members its
`res.json` literals can carry). -/
structure CreateResponse where
  status : Nat
  success : Bool
  message : Option String
  invoiceId : Option Nat
  invoiceNumber : Option String
  createdAt : Option Nat
  error : Option String
  details : Option String
deriving DecidableEq

/-- An exception thrown by the store layer during `invoice.save()`, as
the create handler's catch block discriminates it: duplicate-key
(`error.code === 11000`), Mongoose `ValidationError`, or anything
else.  The payload is the exception's `message`. -/
inductive JsError where
  | dupKey (msg : String) : JsError
  | validationError (msg : String) : JsError
  | other (msg : String) : JsError
deriving DecidableEq

/-- The catch block of the create handler (README lines 405-428):
duplicate key maps to 409, `ValidationError` to 400 with the
exception message always copied into `details`, anything else to 500
with `details` equal to the message only in development mode. -/
def postCatchHandler (env : String) (e : JsError) : CreateResponse :=
  match e with
  | JsError.dupKey _ =>
      { status := 409, success := false, message := none, invoiceId := none,
        invoiceNumber := none, createdAt := none,
        error := some "Invoice number already exists", details := none }
  | JsError.validationError m =>
      { status := 400, success := false, message := none, invoiceId := none,
        invoiceNumber := none, createdAt := none,
        error := some "Validation error", details := some m }
  | JsError.other m =>
      { status := 500, success := false, message := none, invoiceId := none,
        invoiceNumber := none, createdAt := none,
        error := some "Failed to save invoice",
        details := some (if env == "development" then m else "Internal server error") }

/-- The `invoice.save()` step: Mongoose validation first (rejecting
with a `ValidationError`), then the write, which the unique index on
`invoiceNumber` rejects with a duplicate-key error when the number is
already stored; otherwise the document is appended. -/
def saveStep (newId now : Nat) (p : CreatePayload) (s : Store) : Except JsError Store :=
  if mongooseValid p then
    match findByNumber (p.invoiceNumber.getD "") s with
    | some _ => Except.error (JsError.dupKey "E11000 duplicate key error")
    | none => Except.ok { docs := s.docs ++ [mkDoc newId now p] }
  else
    Except.error (JsError.validationError "Invoice validation failed")

/-- The create handler, `POST /api/invoices` (README lines 361-429):
guard on required fields, guard on items, explicit existence
pre-check via `findOne`, then `save()`; store exceptions go through
the catch block.  Returns the response and the resulting store. -/
def createInvoice (env : String) (newId now : Nat) (invoiceData : CreatePayload)
    (s : Store) : CreateResponse × Store :=
  if !(requiredFieldsOk invoiceData) then
    ({ status := 400, success := false, message := none, invoiceId := none,
       invoiceNumber := none, createdAt := none,
       error := some "Missing required fields: invoiceNumber and customerInfo.name",
       details := none }, s)
  else if !(itemsOk invoiceData.items) then
    ({ status := 400, success := false, message := none, invoiceId := none,
       invoiceNumber := none, createdAt := none,
       error := some "At least one item is required", details := none }, s)
  else if (findByNumber (invoiceData.invoiceNumber.getD "") s).isSome then
    ({ status := 409, success := false, message := none, invoiceId := none,
       invoiceNumber := none, createdAt := none,
       error := some "Invoice number already exists", details := none }, s)
  else
    match saveStep newId now invoiceData s with
    | Except.ok s' =>
        ({ status := 201, success := true, message := some "Invoice saved successfully",
           invoiceId := some newId,
           invoiceNumber := some (mkDoc newId now invoiceData).invoiceNumber,
           createdAt := some now, error := none, details := none }, s')
    | Except.error e => (postCatchHandler env e, s)

/-- Response of the get handler. -/
structure GetResponse where
  status : Nat
  success : Bool
  invoice : Option StoredInvoice
  error : Option String
  details : Option String
deriving DecidableEq

/-- The get handler, `GET /api/invoices/:invoiceNumber` (README lines
432-458): `findOne` on the number, 404 when absent, 200 with the full
document (QR payload included) when present.  The store is returned
unchanged. -/
def getInvoice (invoiceNumber : String) (s : Store) : GetResponse × Store :=
  match findByNumber invoiceNumber s with
  | none =>
      ({ status := 404, success := false, invoice := none,
         error := some "Invoice not found", details := none }, s)
  | some inv =>
      ({ status := 200, success := true, invoice := some inv,
         error := none, details := none }, s)

/-- The catch block of the get handler (README lines 450-457). -/
def getCatchHandler (env : String) (m : String) : GetResponse :=
  { status := 500, success := false, invoice := none,
    error := some "Failed to fetch invoice",
    details := some (if env == "development" then m else "Internal server error") }

/-! ### List handler -/

/-- Query string of a list request; every parameter may be absent. -/
structure ListQuery where
  limit : Option String
  skip : Option String
  sortBy : Option String
  sortOrder : Option String
deriving DecidableEq

/-- Effective `limit` after destructuring default and `parseInt`
(README line 463 and the three `parseInt(limit)` uses): the default
50 is a number, on which `parseInt` is the identity. -/
def effLimit (q : ListQuery) : JsNum :=
  match q.limit with
  | none => JsNum.int 50
  | some v => parseIntJS v

/-- Effective `skip` after destructuring default and `parseInt`. -/
def effSkip (q : ListQuery) : JsNum :=
  match q.skip with
  | none => JsNum.int 0
  | some v => parseIntJS v

/-- Effective `sortBy` after the destructuring default. -/
def effSortBy (q : ListQuery) : String :=
  match q.sortBy with
  | none => "createdAt"
  | some v => v

/-- Effective `sortOrder` after the destructuring default. -/
def effSortOrder (q : ListQuery) : String :=
  match q.sortOrder with
  | none => "desc"
  | some v => v

/-- Sort direction from `sortOrder` (README line 466):
`sortOrder === 'desc' ? -1 : 1`. -/
def sortDir (sortOrder : String) : Int :=
  if sortOrder == "desc" then -1 else 1

/-- A document field value as the store's sort sees it: a string, a
number, or missing (a field no document has). -/
inductive FieldVal where
  | missing : FieldVal
  | num (n : Int) : FieldVal
  | str (s : String) : FieldVal
deriving DecidableEq

/-- Type bracket used when comparing values of different kinds
(missing/null sorts before numbers, numbers before strings). -/
def typeRank : FieldVal → Nat
  | FieldVal.missing => 0
  | FieldVal.num _ => 1
  | FieldVal.str _ => 2

/-- Order on field values: same-kind values compare naturally, missing
values are all equal, different kinds compare by bracket. -/
def fieldLE : FieldVal → FieldVal → Bool
  | FieldVal.missing, FieldVal.missing => true
  | FieldVal.num a, FieldVal.num b => decide (a ≤ b)
  | FieldVal.str a, FieldVal.str b => a < b || a == b
  | x, y => decide (typeRank x ≤ typeRank y)

/-- The sortable attributes of a stored invoice; any other `sortBy`
string is missing on every document. -/
def getField (d : StoredInvoice) : String → FieldVal
  | "invoiceNumber" => FieldVal.str d.invoiceNumber
  | "subtotal" => FieldVal.num d.subtotal
  | "serviceFeeAmount" => FieldVal.num d.serviceFeeAmount
  | "total" => FieldVal.num d.total
  | "createdAt" => FieldVal.num (Int.ofNat d.createdAt)
  | "updatedAt" => FieldVal.num (Int.ofNat d.updatedAt)
  | _ => FieldVal.missing

/-- The sort relation of a `sort({field: dir})` call: ascending on the
field for direction 1, descending for -1. -/
def sortRel (field : String) (dir : Int) (a b : StoredInvoice) : Prop :=
  if dir == -1 then fieldLE (getField b field) (getField a field) = true
  else fieldLE (getField a field) (getField b field) = true

instance (field : String) (dir : Int) : DecidableRel (sortRel field dir) := by
  intro a b
  unfold sortRel
  exact match (dir == -1 : Bool) with
  | true => by simp only [if_true]; infer_instance
  | false => by infer_instance

/-- The store's sort primitive, modelled as a stable sort (documents
with equal keys keep their natural order). -/
def sortDocs (field : String) (dir : Int) (l : List StoredInvoice) : List StoredInvoice :=
  List.insertionSort (sortRel field dir) l

/-- The store's skip/limit primitives on a sorted result, for the
well-formed integer arguments the claims quantify over (on NaN the
result set is left unspecified and modelled as empty; no claim
mentions it). -/
def applySkipLimit (limitN skipN : JsNum) (l : List StoredInvoice) : List StoredInvoice :=
  match skipN, limitN with
  | JsNum.int k, JsNum.int n => (l.drop k.toNat).take n.toNat
  | _, _ => []

/-- A listed invoice: the stored document with the large
`dynamicQRCode` member excluded by `select('-dynamicQRCode')`. -/
structure ListedInvoice where
  mongoId : Nat
  invoiceNumber : String
  merchantInfo : Option MerchantInfo
  customerInfo : CustomerInfo
  invoiceDetails : Option InvoiceDetails
  items : List StoredItem
  serviceFee : Option String
  feeType : Option String
  feeValue : Option String
  subtotal : Int
  serviceFeeAmount : Int
  total : Int
  createdAt : Nat
  updatedAt : Nat
deriving DecidableEq

/-- Projection performed by `select('-dynamicQRCode')`: every field
but the QR image is kept. -/
def dropQR (d : StoredInvoice) : ListedInvoice :=
  { mongoId := d.mongoId
    invoiceNumber := d.invoiceNumber
    merchantInfo := d.merchantInfo
    customerInfo := d.customerInfo
    invoiceDetails := d.invoiceDetails
    items := d.items
    serviceFee := d.serviceFee
    feeType := d.feeType
    feeValue := d.feeValue
    subtotal := d.subtotal
    serviceFeeAmount := d.serviceFeeAmount
    total := d.total
    createdAt := d.createdAt
    updatedAt := d.updatedAt }

/-- Pagination metadata of a list response (README lines 479-484). -/
structure Pagination where
  total : Nat
  limit : JsNum
  skip : JsNum
  hasMore : Bool
deriving DecidableEq

/-- Response of the list handler. -/
structure ListResponse where
  status : Nat
  success : Bool
  invoices : List ListedInvoice
  pagination : Option Pagination
  error : Option String
  details : Option String
deriving DecidableEq

/-- The list handler, `GET /api/invoices` (README lines 461-495):
sort, skip, limit, QR field excluded, plus pagination metadata with
`hasMore = parseInt(skip) + parseInt(limit) < total`. -/
def listInvoices (q : ListQuery) (s : Store) : ListResponse × Store :=
  ({ status := 200, success := true,
     invoices := (applySkipLimit (effLimit q) (effSkip q)
       (sortDocs (effSortBy q) (sortDir (effSortOrder q)) s.docs)).map dropQR,
     pagination := some { total := s.docs.length, limit := effLimit q, skip := effSkip q,
                          hasMore := jsLt (jsAdd (effSkip q) (effLimit q))
                            (JsNum.int (Int.ofNat s.docs.length)) },
     error := none, details := none }, s)

/-- The catch block of the list handler (README lines 487-494). -/
def listCatchHandler (env : String) (m : String) : ListResponse :=
  { status := 500, success := false, invoices := [], pagination := none,
    error := some "Failed to fetch invoices",
    details := some (if env == "development" then m else "Internal server error") }

/-! ### Delete handler -/

/-- The `deletedInvoice` member of a successful delete response. -/
structure DeletedInfo where
  id : Nat
  invoiceNumber : String
deriving DecidableEq

/-- Response of the delete handler. -/
structure DeleteResponse where
  status : Nat
  success : Bool
  message : Option String
  deletedInvoice : Option DeletedInfo
  error : Option String
  details : Option String
deriving DecidableEq

/-- The delete handler, `DELETE /api/invoices/:invoiceNumber` (README
lines 498-528): `findOneAndDelete` removes the first matching
document atomically; 404 when none matches. -/
def deleteInvoice (invoiceNumber : String) (s : Store) : DeleteResponse × Store :=
  match findByNumber invoiceNumber s with
  | none =>
      ({ status := 404, success := false, message := none, deletedInvoice := none,
         error := some "Invoice not found", details := none }, s)
  | some doc =>
      ({ status := 200, success := true, message := some "Invoice deleted successfully",
         deletedInvoice := some { id := doc.mongoId, invoiceNumber := doc.invoiceNumber },
         error := none, details := none },
       { docs := s.docs.eraseP (fun d => d.invoiceNumber == invoiceNumber) })

/-- The catch block of the delete handler (README lines 520-527). -/
def deleteCatchHandler (env : String) (m : String) : DeleteResponse :=
  { status := 500, success := false, message := none, deletedInvoice := none,
    error := some "Failed to delete invoice",
    details := some (if env == "development" then m else "Internal server error") }

/-- A bare failure body, as produced by the global error handler. -/
structure ErrorBody where
  status : Nat
  success : Bool
  error : Option String
  details : Option String
deriving DecidableEq

/-- The global error handler (README lines 540-547): uniform 500 with
the exception message in `details` only in development mode. -/
def globalErrorHandler (env : String) (m : String) : ErrorBody :=
  { status := 500, success := false,
    error := some "Internal server error",
    details := some (if env == "development" then m else "Something went wrong") }

/-! ### Sample data

Concrete values used by witnesses and counterexamples, drawn from the
README's request example (lines 72-97). -/

/-- The example customer from the README. -/
def sampleCustomer : CustomerInfo :=
  { name := some "John Doe", email := none, phone := none, address := none }

/-- The example line item from the README. -/
def sampleItem : Item :=
  { id := some "1", name := some "Produk A", quantity := some 2,
    price := some 50000, total := some 100000 }

/-- A well-formed create payload with invoice number INV-1. -/
def samplePayload : CreatePayload :=
  { invoiceNumber := some "INV-1", merchantInfo := none,
    customerInfo := some sampleCustomer, invoiceDetails := none,
    items := ItemsField.array [sampleItem],
    serviceFee := none, feeType := none, feeValue := none,
    subtotal := some 100000, serviceFeeAmount := none, total := some 100000,
    dynamicQRCode := some "qr-image-data" }

/-- A second well-formed payload with invoice number INV-2 and no QR
image. -/
def samplePayload2 : CreatePayload :=
  { invoiceNumber := some "INV-2", merchantInfo := none,
    customerInfo := some sampleCustomer, invoiceDetails := none,
    items := ItemsField.array [sampleItem],
    serviceFee := none, feeType := none, feeValue := none,
    subtotal := some 100000, serviceFeeAmount := none, total := some 100000,
    dynamicQRCode := none }

/-- The payload for INV-1 with the customer (hence `customerInfo.name`)
missing: rejected by the first validation guard. -/
def noNamePayload : CreatePayload :=
  { invoiceNumber := some "INV-1", merchantInfo := none,
    customerInfo := none, invoiceDetails := none,
    items := ItemsField.array [sampleItem],
    serviceFee := none, feeType := none, feeValue := none,
    subtotal := some 100000, serviceFeeAmount := none, total := some 100000,
    dynamicQRCode := none }

/-- The empty collection. -/
def emptyStore : Store := { docs := [] }

/-- The store after one successful create of `samplePayload` (id 1,
time 0). -/
def store1 : Store := (createInvoice "development" 1 0 samplePayload emptyStore).2

/-- A three-document store built by hand (distinct numbers, distinct
creation times, out of creation order) to exercise list sorting. -/
def docA : StoredInvoice :=
  { mongoId := 1, invoiceNumber := "INV-A", merchantInfo := none,
    customerInfo := sampleCustomer, invoiceDetails := none,
    items := [], serviceFee := none, feeType := none, feeValue := none,
    subtotal := 10, serviceFeeAmount := 0, total := 10,
    dynamicQRCode := some "qrA", createdAt := 5, updatedAt := 5 }

/-- Second hand-built document. -/
def docB : StoredInvoice :=
  { mongoId := 2, invoiceNumber := "INV-B", merchantInfo := none,
    customerInfo := sampleCustomer, invoiceDetails := none,
    items := [], serviceFee := none, feeType := none, feeValue := none,
    subtotal := 20, serviceFeeAmount := 0, total := 20,
    dynamicQRCode := some "qrB", createdAt := 9, updatedAt := 9 }

/-- Third hand-built document. -/
def docC : StoredInvoice :=
  { mongoId := 3, invoiceNumber := "INV-C", merchantInfo := none,
    customerInfo := sampleCustomer, invoiceDetails := none,
    items := [], serviceFee := none, feeType := none, feeValue := none,
    subtotal := 30, serviceFeeAmount := 0, total := 30,
    dynamicQRCode := some "qrC", createdAt := 7, updatedAt := 7 }

/-- Store holding the three hand-built documents. -/
def store3 : Store := { docs := [docA, docB, docC] }

/-! ### Reachable store states -/

/-- The store states reachable from the empty collection through the
four handlers, with arbitrary environment, clock, id and request
arguments. -/
inductive Reachable : Store → Prop where
  | empty : Reachable { docs := [] }
  | create (env : String) (newId now : Nat) (p : CreatePayload) (s : Store) :
      Reachable s → Reachable (createInvoice env newId now p s).2
  | get (n : String) (s : Store) :
      Reachable s → Reachable (getInvoice n s).2
  | list (q : ListQuery) (s : Store) :
      Reachable s → Reachable (listInvoices q s).2
  | delete (n : String) (s : Store) :
      Reachable s → Reachable (deleteInvoice n s).2

/-! ### Claim postconditions

One `Prop`-valued definition per hypothesis-carrying claim, so the
claim theorem and its witness state the same conclusion. -/

/-- Conclusion of the (amended) duplicate-number claim: the create
handler answers 409/`success:false` with the conflict error, leaves
the store unchanged, and the duplicate-key catch branch produces the
very same response. -/
def C1Post (env : String) (newId now : Nat) (p : CreatePayload) (s : Store) : Prop :=
  (createInvoice env newId now p s).1.status = 409 ∧
  (createInvoice env newId now p s).1.success = false ∧
  (createInvoice env newId now p s).1.error = some "Invoice number already exists" ∧
  (createInvoice env newId now p s).2 = s ∧
  (∀ (env2 m : String), postCatchHandler env2 (JsError.dupKey m) = (createInvoice env newId now p s).1)

/-- Conclusion of the (amended) invalid-create claim: 400,
`success:false`, store untouched, and a get for the payload's number
answers 404 whenever that number was not already stored. -/
def C2Post (env : String) (newId now : Nat) (p : CreatePayload) (s : Store) : Prop :=
  (createInvoice env newId now p s).1.status = 400 ∧
  (createInvoice env newId now p s).1.success = false ∧
  (createInvoice env newId now p s).2 = s ∧
  (∀ num : String, p.invoiceNumber = some num → findByNumber num s = none →
      (getInvoice num (createInvoice env newId now p s).2).1.status = 404)

/-- Conclusion of the pagination claim, for a request whose `limit`
and `skip` parse to the naturals `ln` and `kn`: 200, at most `ln`
invoices, the page is the skip/limit slice of the sorted collection
with the QR field projected away, the metadata reports
`hasMore = (skip + limit < total)`, and an all-defaults request uses
limit 50, skip 0, descending creation time. -/
def C3Post (q : ListQuery) (s : Store) (ln kn : Nat) : Prop :=
  (listInvoices q s).1.status = 200 ∧
  (listInvoices q s).1.success = true ∧
  (listInvoices q s).1.invoices.length ≤ ln ∧
  (listInvoices q s).1.invoices =
    (((sortDocs (effSortBy q) (sortDir (effSortOrder q)) s.docs).drop kn).take ln).map dropQR ∧
  (listInvoices q s).1.pagination =
    some { total := s.docs.length, limit := JsNum.int (Int.ofNat ln),
           skip := JsNum.int (Int.ofNat kn),
           hasMore := decide (kn + ln < s.docs.length) } ∧
  effLimit { limit := none, skip := none, sortBy := none, sortOrder := none } = JsNum.int 50 ∧
  effSkip { limit := none, skip := none, sortBy := none, sortOrder := none } = JsNum.int 0 ∧
  effSortBy { limit := none, skip := none, sortBy := none, sortOrder := none } = "createdAt" ∧
  effSortOrder { limit := none, skip := none, sortBy := none, sortOrder := none } = "desc" ∧
  List.Pairwise (fun a b : ListedInvoice => b.createdAt ≤ a.createdAt)
    (listInvoices { limit := none, skip := none, sortBy := none, sortOrder := none } s).1.invoices

/-- Conclusion of the fresh-create round-trip claim: 201 with id,
number and creation time, the document appended, a subsequent get
returning exactly the stored document (QR payload included) with no
store mutation, and the stored document's content agreeing with the
payload. -/
def C4Post (env : String) (newId now : Nat) (p : CreatePayload) (s : Store) (num : String) : Prop :=
  (createInvoice env newId now p s).1.status = 201 ∧
  (createInvoice env newId now p s).1.success = true ∧
  (createInvoice env newId now p s).1.invoiceId = some newId ∧
  (createInvoice env newId now p s).1.invoiceNumber = some num ∧
  (createInvoice env newId now p s).1.createdAt = some now ∧
  (createInvoice env newId now p s).2.docs = s.docs ++ [mkDoc newId now p] ∧
  (getInvoice num (createInvoice env newId now p s).2).1.status = 200 ∧
  (getInvoice num (createInvoice env newId now p s).2).1.invoice = some (mkDoc newId now p) ∧
  (getInvoice num (createInvoice env newId now p s).2).2 = (createInvoice env newId now p s).2 ∧
  (mkDoc newId now p).invoiceNumber = num ∧
  (mkDoc newId now p).dynamicQRCode = p.dynamicQRCode ∧
  (mkDoc newId now p).merchantInfo = p.merchantInfo ∧
  (∀ ci : CustomerInfo, p.customerInfo = some ci → (mkDoc newId now p).customerInfo = ci) ∧
  (∀ xs : List Item, p.items = ItemsField.array xs → (mkDoc newId now p).items = xs.map mkStoredItem) ∧
  (∀ v : Int, p.subtotal = some v → (mkDoc newId now p).subtotal = v) ∧
  (∀ v : Int, p.total = some v → (mkDoc newId now p).total = v) ∧
  (mkDoc newId now p).createdAt = now

/-- Conclusion of the delete claim: a matching delete answers 200 with
the deleted document's id and number, removes exactly that document,
and makes subsequent gets and deletes for the number answer 404; a
non-matching delete answers 404 and leaves the store unchanged. -/
def C6Post (n : String) (s : Store) : Prop :=
  (∀ d : StoredInvoice, findByNumber n s = some d →
      (deleteInvoice n s).1.status = 200 ∧
      (deleteInvoice n s).1.success = true ∧
      (deleteInvoice n s).1.deletedInvoice = some { id := d.mongoId, invoiceNumber := d.invoiceNumber } ∧
      (deleteInvoice n s).2.docs = s.docs.eraseP (fun x => x.invoiceNumber == n) ∧
      d ∉ (deleteInvoice n s).2.docs ∧
      (∀ x ∈ s.docs, x.invoiceNumber ≠ n → x ∈ (deleteInvoice n s).2.docs) ∧
      (∀ x ∈ (deleteInvoice n s).2.docs, x ∈ s.docs) ∧
      (deleteInvoice n s).2.docs.length + 1 = s.docs.length ∧
      (getInvoice n (deleteInvoice n s).2).1.status = 404 ∧
      (deleteInvoice n (deleteInvoice n s).2).1.status = 404 ∧
      (deleteInvoice n (deleteInvoice n s).2).2 = (deleteInvoice n s).2) ∧
  (findByNumber n s = none →
      (deleteInvoice n s).1.status = 404 ∧
      (deleteInvoice n s).1.success = false ∧
      (deleteInvoice n s).2 = s)

/-- Conclusion of the invalid-sortBy claim: the list handler still
answers 200 with a page, and the page is the skip/limit slice of the
collection in natural (insertion/creation) order. -/
def C7Post (q : ListQuery) (s : Store) : Prop :=
  (listInvoices q s).1.status = 200 ∧
  (listInvoices q s).1.success = true ∧
  (listInvoices q s).1.invoices = (applySkipLimit (effLimit q) (effSkip q) s.docs).map dropQR

/-- Conclusion of the (amended) failure-shape claim: outside
development mode every 500-producing catch path is independent of the
exception message; every failure body carries `success:false` and an
error string; and the create handler's ValidationError branch copies
the exception message into `details` in every mode. -/
def C8Post (env m1 m2 : String) : Prop :=
  postCatchHandler env (JsError.other m1) = postCatchHandler env (JsError.other m2) ∧
  getCatchHandler env m1 = getCatchHandler env m2 ∧
  listCatchHandler env m1 = listCatchHandler env m2 ∧
  deleteCatchHandler env m1 = deleteCatchHandler env m2 ∧
  globalErrorHandler env m1 = globalErrorHandler env m2 ∧
  (∀ (env2 : String) (e : JsError),
      (postCatchHandler env2 e).success = false ∧ (postCatchHandler env2 e).error.isSome = true) ∧
  (∀ (env2 m : String),
      (getCatchHandler env2 m).success = false ∧ (getCatchHandler env2 m).error.isSome = true) ∧
  (∀ (env2 m : String),
      (listCatchHandler env2 m).success = false ∧ (listCatchHandler env2 m).error.isSome = true) ∧
  (∀ (env2 m : String),
      (deleteCatchHandler env2 m).success = false ∧ (deleteCatchHandler env2 m).error.isSome = true) ∧
  (∀ (env2 m : String),
      (globalErrorHandler env2 m).success = false ∧ (globalErrorHandler env2 m).error.isSome = true) ∧
  (∀ (env2 : String) (newId now : Nat) (p : CreatePayload) (s : Store),
      (createInvoice env2 newId now p s).1.status ≠ 201 →
      (createInvoice env2 newId now p s).1.success = false ∧
      (createInvoice env2 newId now p s).1.error.isSome = true) ∧
  (∀ (n : String) (s : Store),
      (getInvoice n s).1.status = 404 →
      (getInvoice n s).1.success = false ∧ (getInvoice n s).1.error.isSome = true) ∧
  (∀ (n : String) (s : Store),
      (deleteInvoice n s).1.status = 404 →
      (deleteInvoice n s).1.success = false ∧ (deleteInvoice n s).1.error.isSome = true) ∧
  (∀ (env2 m : String), (postCatchHandler env2 (JsError.validationError m)).details = some m)

/-- Conclusion of the sortOrder claim: a present non-`desc` value
yields direction 1 (ascending) and the page is computed from the
ascending sort; the literal `desc` and an absent parameter yield
direction -1. -/
def C9Post (q : ListQuery) (s : Store) : Prop :=
  sortDir (effSortOrder q) = 1 ∧
  (listInvoices q s).1.invoices =
    (applySkipLimit (effLimit q) (effSkip q) (sortDocs (effSortBy q) 1 s.docs)).map dropQR ∧
  (∀ w : String, w ≠ "desc" → sortDir w = 1) ∧
  sortDir "desc" = -1 ∧
  (∀ q2 : ListQuery, q2.sortOrder = none → sortDir (effSortOrder q2) = -1)

/-- Conclusion of the NaN-pagination claim: an unparseable `limit`
(resp. `skip`) makes the metadata report NaN for that field and
`hasMore:false`, and the documented default is not applied; the
defaults 50 and 0 arise exactly from absent parameters. -/
def C10Post (q : ListQuery) (s : Store) : Prop :=
  (∀ ls : String, q.limit = some ls → parseIntJS ls = JsNum.nan →
      (listInvoices q s).1.pagination =
        some { total := s.docs.length, limit := JsNum.nan, skip := effSkip q, hasMore := false } ∧
      effLimit q ≠ JsNum.int 50) ∧
  (∀ ks : String, q.skip = some ks → parseIntJS ks = JsNum.nan →
      (listInvoices q s).1.pagination =
        some { total := s.docs.length, limit := effLimit q, skip := JsNum.nan, hasMore := false } ∧
      effSkip q ≠ JsNum.int 0) ∧
  (∀ q2 : ListQuery, q2.limit = none → effLimit q2 = JsNum.int 50) ∧
  (∀ q2 : ListQuery, q2.skip = none → effSkip q2 = JsNum.int 0)

/-! ### General lemmas about the store operations -/

theorem orderedInsert_of_forall {α : Type} {r : α → α → Prop} [DecidableRel r]
    (h : ∀ a b : α, r a b) (a : α) (l : List α) :
    List.orderedInsert r a l = a :: l := by
  cases l with
  | nil => rfl
  | cons b t => simp [List.orderedInsert, h a b]

theorem insertionSort_of_forall {α : Type} {r : α → α → Prop} [DecidableRel r]
    (h : ∀ a b : α, r a b) (l : List α) :
    List.insertionSort r l = l := by
  induction l with
  | nil => rfl
  | cons a t ih => simp [List.insertionSort, ih, orderedInsert_of_forall h]

theorem findByNumber_eq_none_iff (n : String) (s : Store) :
    findByNumber n s = none ↔ ∀ d ∈ s.docs, d.invoiceNumber ≠ n := by
  simp [findByNumber, List.find?_eq_none]

theorem find?_eraseP_none (n : String) (l : List StoredInvoice)
    (h : (l.map (fun d => d.invoiceNumber)).Nodup) :
    (l.eraseP (fun d => d.invoiceNumber == n)).find? (fun d => d.invoiceNumber == n) = none := by
  induction l with
  | nil => rfl
  | cons d t ih =>
    simp only [List.map_cons, List.nodup_cons] at h
    by_cases hd : d.invoiceNumber = n
    · rw [List.eraseP_cons_of_pos (by simp [hd])]
      rw [List.find?_eq_none]
      intro x hx
      simp only [beq_iff_eq]
      intro hxn
      exact h.1 (by rw [hd, ← hxn]; exact List.mem_map_of_mem _ hx)
    · rw [List.eraseP_cons_of_neg (by simp [hd])]
      rw [List.find?_cons_of_neg _ (by simp [hd])]
      exact ih h.2

theorem get_store_eq (n : String) (s : Store) : (getInvoice n s).2 = s := by
  unfold getInvoice
  cases findByNumber n s <;> rfl

theorem list_store_eq (q : ListQuery) (s : Store) : (listInvoices q s).2 = s := rfl

theorem saveStep_ok (newId now : Nat) (p : CreatePayload) (s s' : Store)
    (h : saveStep newId now p s = Except.ok s') :
    mongooseValid p = true ∧ findByNumber (p.invoiceNumber.getD "") s = none ∧
      s'.docs = s.docs ++ [mkDoc newId now p] := by
  unfold saveStep at h
  by_cases hv : mongooseValid p
  · rw [if_pos hv] at h
    cases hf : findByNumber (p.invoiceNumber.getD "") s with
    | some d => rw [hf] at h; exact absurd h (by simp)
    | none =>
      rw [hf] at h
      refine ⟨hv, rfl, ?_⟩
      cases h
      rfl
  · rw [if_neg hv] at h
    exact absurd h (by simp)

theorem saveStep_dup (newId now : Nat) (p : CreatePayload) (s : Store)
    (hv : mongooseValid p = true)
    (hex : findByNumber (p.invoiceNumber.getD "") s ≠ none) :
    saveStep newId now p s = Except.error (JsError.dupKey "E11000 duplicate key error") := by
  unfold saveStep
  rw [if_pos hv]
  cases hf : findByNumber (p.invoiceNumber.getD "") s with
  | some d => rfl
  | none => exact absurd hf hex

theorem create_store_cases (env : String) (newId now : Nat) (p : CreatePayload) (s : Store) :
    (createInvoice env newId now p s).2 = s ∨
    (findByNumber (p.invoiceNumber.getD "") s = none ∧
      (createInvoice env newId now p s).2.docs = s.docs ++ [mkDoc newId now p]) := by
  unfold createInvoice
  cases hb1 : requiredFieldsOk p with
  | false => simp [hb1]
  | true =>
    cases hb2 : itemsOk p.items with
    | false => simp [hb1, hb2]
    | true =>
      cases hf : findByNumber (p.invoiceNumber.getD "") s with
      | some d => simp [hb1, hb2, hf]
      | none =>
        cases hs : saveStep newId now p s with
        | ok s' =>
          have h := saveStep_ok newId now p s s' hs
          exact Or.inr ⟨rfl, h.2.2⟩
        | error e => exact Or.inl rfl

theorem delete_store_cases (n : String) (s : Store) :
    (deleteInvoice n s).2 = s ∨
    (deleteInvoice n s).2.docs = s.docs.eraseP (fun d => d.invoiceNumber == n) := by
  unfold deleteInvoice
  cases hf : findByNumber n s with
  | none => exact Or.inl rfl
  | some d => exact Or.inr rfl

theorem reachable_nodup (s : Store) (h : Reachable s) : (invoiceNumbers s).Nodup := by
  induction h with
  | empty => simp [invoiceNumbers]
  | create env newId now p s hs ih =>
    rcases create_store_cases env newId now p s with hc | ⟨hf, hc⟩
    · rw [hc]; exact ih
    · have hns : invoiceNumbers (createInvoice env newId now p s).2 =
          invoiceNumbers s ++ [(mkDoc newId now p).invoiceNumber] := by
        simp [invoiceNumbers, hc]
      rw [hns, List.nodup_append]
      refine ⟨ih, List.nodup_singleton _, ?_⟩
      intro x hx hmem
      have hxeq : x = (mkDoc newId now p).invoiceNumber := by simpa using hmem
      obtain ⟨d, hd, hdx⟩ := List.mem_map.mp hx
      have hall := (findByNumber_eq_none_iff _ _).mp hf
      exact hall d hd (by rw [hdx, hxeq]; rfl)
  | get n s hs ih => rw [get_store_eq]; exact ih
  | list q s hs ih => rw [list_store_eq]; exact ih
  | delete n s hs ih =>
    rcases delete_store_cases n s with hc | hc
    · rw [hc]; exact ih
    · have hsub : List.Sublist (deleteInvoice n s).2.docs s.docs := by
        rw [hc]; exact List.eraseP_sublist _
      exact List.Nodup.sublist (List.Sublist.map _ hsub) ih

/-! ### Claim C1 -/

/-- C1 as frozen is false: a request whose payload carries a stored
invoice number but fails the field validation (here
`customerInfo.name` is absent) is answered 400, not 409 — the
validation guards run before the existence check. -/
theorem C1_counterexample :
    (findByNumber "INV-1" store1).isSome = true ∧
    noNamePayload.invoiceNumber = some "INV-1" ∧
    (createInvoice "development" 2 1 noNamePayload store1).1.status = 400 ∧
    (createInvoice "development" 2 1 noNamePayload store1).1.status ≠ 409 := by
  decide

/-- C1 (amended): for every create request that passes both validation
guards and whose invoiceNumber equals that of a stored invoice, the
handler answers 409 with `success:false` and the conflict error,
leaves the store unchanged, and the duplicate-key catch branch
produces exactly the same response as the explicit pre-check. -/
theorem C1_duplicate_conflict (env : String) (newId now : Nat) (p : CreatePayload) (s : Store)
    (hr : requiredFieldsOk p = true) (hi : itemsOk p.items = true)
    (hex : (findByNumber (p.invoiceNumber.getD "") s).isSome = true) :
    C1Post env newId now p s := by
  have hresp : createInvoice env newId now p s =
      ({ status := 409, success := false, message := none, invoiceId := none,
         invoiceNumber := none, createdAt := none,
         error := some "Invoice number already exists", details := none }, s) := by
    unfold createInvoice
    rw [hr, hi, hex]
    simp
  unfold C1Post
  rw [hresp]
  refine ⟨rfl, rfl, rfl, rfl, ?_⟩
  intro env2 m
  rfl

/-- Witness for the amended C1 at a concrete duplicate request. -/
theorem C1_duplicate_conflict_witness :
    C1Post "production" 7 3 samplePayload store1 :=
  C1_duplicate_conflict "production" 7 3 samplePayload store1
    (by decide) (by decide) (by decide)

/-! ### Claim C2 -/

/-- C2 as frozen is false in one corner: when the invalid request's
invoice number was already stored by an earlier valid request, the
subsequent get answers 200, not 404 (the store is unchanged, which
here means the old document is still there). -/
theorem C2_counterexample :
    noNamePayload.customerInfo = none ∧
    noNamePayload.invoiceNumber = some "INV-1" ∧
    (createInvoice "development" 2 1 noNamePayload store1).1.status = 400 ∧
    (createInvoice "development" 2 1 noNamePayload store1).2 = store1 ∧
    (getInvoice "INV-1" (createInvoice "development" 2 1 noNamePayload store1).2).1.status = 200 ∧
    (getInvoice "INV-1" (createInvoice "development" 2 1 noNamePayload store1).2).1.status ≠ 404 := by
  decide

/-- C2 (amended): for every create request failing a validation guard
(invoiceNumber or customerInfo.name falsy, or items not a non-empty
array) the handler answers 400 with `success:false` and writes
nothing, and a subsequent get for the payload's number answers 404
whenever no invoice with that number was stored before the request. -/
theorem C2_invalid_create (env : String) (newId now : Nat) (p : CreatePayload) (s : Store)
    (h : requiredFieldsOk p = false ∨ itemsOk p.items = false) :
    C2Post env newId now p s := by
  have hresp : (createInvoice env newId now p s).1.status = 400 ∧
      (createInvoice env newId now p s).1.success = false ∧
      (createInvoice env newId now p s).2 = s := by
    rcases h with h1 | h2
    · unfold createInvoice
      rw [h1]
      exact ⟨rfl, rfl, rfl⟩
    · unfold createInvoice
      cases hb1 : requiredFieldsOk p with
      | false => exact ⟨rfl, rfl, rfl⟩
      | true => rw [h2]; exact ⟨rfl, rfl, rfl⟩
  refine ⟨hresp.1, hresp.2.1, hresp.2.2, ?_⟩
  intro num hnum hfresh
  rw [hresp.2.2]
  unfold getInvoice
  rw [hfresh]

/-- Witness for the amended C2 at a concrete invalid request against
the empty store. -/
theorem C2_invalid_create_witness :
    C2Post "development" 3 2 noNamePayload emptyStore :=
  C2_invalid_create "development" 3 2 noNamePayload emptyStore (Or.inl (by decide))

/-! ### Claim C4 -/

/-- C4: every create with a fresh invoice number and a payload passing
validation answers 201 with the generated id, the invoice number and
the creation timestamp; a subsequent get for that number answers 200
with exactly the stored document — QR payload included, content equal
to the input — and does not change the store. -/
theorem C4_create_get_roundtrip (env : String) (newId now : Nat) (p : CreatePayload)
    (s : Store) (num : String)
    (hv : mongooseValid p = true) (hi : itemsOk p.items = true)
    (hn : p.invoiceNumber = some num) (hfresh : findByNumber num s = none) :
    C4Post env newId now p s num := by
  have hgetD : p.invoiceNumber.getD "" = num := by rw [hn]; rfl
  have hmknum : (mkDoc newId now p).invoiceNumber = num := by
    simp [mkDoc, hn]
  have hr : requiredFieldsOk p = true := by
    unfold mongooseValid at hv
    unfold requiredFieldsOk
    simp only [Bool.and_eq_true] at hv ⊢
    exact ⟨hv.1.1.1.1.1, hv.1.1.1.1.2⟩
  have hsave : saveStep newId now p s = Except.ok { docs := s.docs ++ [mkDoc newId now p] } := by
    unfold saveStep
    rw [if_pos hv, hgetD, hfresh]
  have hresp : createInvoice env newId now p s =
      ({ status := 201, success := true, message := some "Invoice saved successfully",
         invoiceId := some newId, invoiceNumber := some (mkDoc newId now p).invoiceNumber,
         createdAt := some now, error := none, details := none },
       { docs := s.docs ++ [mkDoc newId now p] }) := by
    unfold createInvoice
    rw [hr, hi, hgetD, hfresh, hsave]
    rfl
  have hfind : findByNumber num { docs := s.docs ++ [mkDoc newId now p] } =
      some (mkDoc newId now p) := by
    unfold findByNumber
    rw [List.find?_append]
    have h1 : s.docs.find? (fun d => d.invoiceNumber == num) = none := hfresh
    rw [h1]
    simp [List.find?, hmknum]
  unfold C4Post
  rw [hresp]
  refine ⟨rfl, rfl, rfl, by rw [hmknum], rfl, rfl, ?_, ?_, ?_, hmknum, rfl, rfl, ?_, ?_, ?_, ?_, rfl⟩
  · unfold getInvoice
    rw [hfind]
  · unfold getInvoice
    rw [hfind]
  · unfold getInvoice
    rw [hfind]
  · intro ci hci; simp [mkDoc, hci]
  · intro xs hxs; simp [mkDoc, hxs]
  · intro v hv2; simp [mkDoc, hv2]
  · intro v hv2; simp [mkDoc, hv2]

/-- Witness for C4 at the README's example payload against the empty
store. -/
theorem C4_create_get_roundtrip_witness :
    C4Post "development" 1 0 samplePayload emptyStore "INV-1" :=
  C4_create_get_roundtrip "development" 1 0 samplePayload emptyStore "INV-1"
    (by decide) (by decide) (by decide) (by decide)

/-! ### Claim C5 -/

/-- C5: in every reachable store state the invoice numbers are
pairwise distinct; the save step rejects a write whose number is
already stored with a duplicate-key error regardless of any stale
pre-check, so of two identical racing creates at most one write
succeeds and the loser's save fails with the duplicate-key error,
which the handler maps to the 409 conflict; get, list and delete
never duplicate a record (they are part of the reachability
induction). -/
theorem C5_unique_invoiceNumber :
    (∀ s : Store, Reachable s → (invoiceNumbers s).Nodup) ∧
    (∀ (newId now : Nat) (p : CreatePayload) (s : Store),
        mongooseValid p = true →
        findByNumber (p.invoiceNumber.getD "") s ≠ none →
        saveStep newId now p s = Except.error (JsError.dupKey "E11000 duplicate key error")) ∧
    (∀ (id1 t1 id2 t2 : Nat) (p : CreatePayload) (s s1 : Store),
        saveStep id1 t1 p s = Except.ok s1 →
        saveStep id2 t2 p s1 = Except.error (JsError.dupKey "E11000 duplicate key error")) ∧
    (∀ (env m : String),
        (postCatchHandler env (JsError.dupKey m)).status = 409 ∧
        (postCatchHandler env (JsError.dupKey m)).success = false) := by
  refine ⟨reachable_nodup, saveStep_dup, ?_, fun env m => ⟨rfl, rfl⟩⟩
  intro id1 t1 id2 t2 p s s1 h
  have hok := saveStep_ok id1 t1 p s s1 h
  apply saveStep_dup id2 t2 p s1 hok.1
  unfold findByNumber
  rw [hok.2.2, List.find?_append]
  have h1 : s.docs.find? (fun d => d.invoiceNumber == p.invoiceNumber.getD "") = none := hok.2.1
  rw [h1]
  have hx : (mkDoc id1 t1 p).invoiceNumber = p.invoiceNumber.getD "" := rfl
  simp [List.find?, hx]

/-- Witness for C5: the store reached by one successful create has
nodup numbers, and a second identical save against it fails with the
duplicate-key error. -/
theorem C5_unique_invoiceNumber_witness :
    (invoiceNumbers store1).Nodup ∧
    saveStep 2 1 samplePayload store1 =
      Except.error (JsError.dupKey "E11000 duplicate key error") := by
  constructor
  · exact C5_unique_invoiceNumber.1 store1
      (Reachable.create "development" 1 0 samplePayload emptyStore Reachable.empty)
  · exact C5_unique_invoiceNumber.2.1 2 1 samplePayload store1 (by decide) (by decide)

/-! ### Claim C6 -/

/-- C6: deleting a stored invoice number removes exactly that document
and answers 200 with its id and number, after which gets and repeated
deletes for the number answer 404; deleting an absent number answers
404 and leaves the store unchanged, so a delete never succeeds twice. -/
theorem C6_delete_semantics (n : String) (s : Store)
    (hnd : (invoiceNumbers s).Nodup) : C6Post n s := by
  constructor
  · intro d hd
    have hd' : s.docs.find? (fun x => x.invoiceNumber == n) = some d := hd
    have hpd0 := List.find?_some hd'
    have hpd : (d.invoiceNumber == n) = true := hpd0
    have hmem : d ∈ s.docs := List.mem_of_find?_eq_some hd'
    have hdel : deleteInvoice n s =
        ({ status := 200, success := true, message := some "Invoice deleted successfully",
           deletedInvoice := some { id := d.mongoId, invoiceNumber := d.invoiceNumber },
           error := none, details := none },
         { docs := s.docs.eraseP (fun x => x.invoiceNumber == n) }) := by
      unfold deleteInvoice
      rw [hd]
    have hnone : (s.docs.eraseP (fun x => x.invoiceNumber == n)).find?
        (fun x => x.invoiceNumber == n) = none := find?_eraseP_none n s.docs hnd
    refine ⟨by rw [hdel], by rw [hdel], by rw [hdel], by rw [hdel], ?_, ?_, ?_, ?_, ?_, ?_, ?_⟩
    · rw [hdel]
      intro hmem2
      have := List.find?_eq_none.mp hnone d hmem2
      exact this hpd
    · intro x hx hxn
      rw [hdel]
      exact (List.mem_eraseP_of_neg (by simp [hxn])).mpr hx
    · intro x hx
      rw [hdel] at hx
      exact (List.eraseP_sublist _).subset hx
    · rw [hdel]
      exact List.length_eraseP_add_one hmem hpd
    · rw [hdel]
      unfold getInvoice findByNumber
      rw [hnone]
    · rw [hdel]
      unfold deleteInvoice findByNumber
      rw [hnone]
    · rw [hdel]
      unfold deleteInvoice findByNumber
      rw [hnone]
  · intro hf
    unfold deleteInvoice
    rw [hf]
    exact ⟨rfl, rfl, rfl⟩

/-- Witness for C6 on the three-document store. -/
theorem C6_delete_semantics_witness : C6Post "INV-A" store3 :=
  C6_delete_semantics "INV-A" store3 (by decide)

/-! ### Claim C3 -/

theorem getField_createdAt (d : StoredInvoice) :
    getField d "createdAt" = FieldVal.num (Int.ofNat d.createdAt) := rfl

theorem sortRel_createdAt_desc (a b : StoredInvoice) :
    sortRel "createdAt" (-1) a b ↔ b.createdAt ≤ a.createdAt := by
  unfold sortRel
  rw [if_pos (by decide), getField_createdAt, getField_createdAt]
  simp [fieldLE]

/-- A descending-by-createdAt sort of the collection is pairwise
descending in `createdAt`. -/
theorem pairwise_desc_sortDocs (l : List StoredInvoice) :
    List.Pairwise (fun a b : StoredInvoice => b.createdAt ≤ a.createdAt)
      (sortDocs "createdAt" (-1) l) := by
  haveI : IsTotal StoredInvoice (sortRel "createdAt" (-1)) := by
    constructor
    intro a b
    rcases Nat.le_total b.createdAt a.createdAt with h | h
    · exact Or.inl ((sortRel_createdAt_desc a b).mpr h)
    · exact Or.inr ((sortRel_createdAt_desc b a).mpr h)
  haveI : IsTrans StoredInvoice (sortRel "createdAt" (-1)) := by
    constructor
    intro a b c hab hbc
    exact (sortRel_createdAt_desc a c).mpr
      (le_trans ((sortRel_createdAt_desc b c).mp hbc) ((sortRel_createdAt_desc a b).mp hab))
  have hs := List.sorted_insertionSort (sortRel "createdAt" (-1)) l
  exact List.Pairwise.imp (fun hab => (sortRel_createdAt_desc _ _).mp hab) hs

/-- C3: a list request whose limit and skip parse to the naturals `ln`
and `kn` answers 200 with at most `ln` invoices — the skip/limit slice
of the sorted collection, QR field projected away — and pagination
metadata with `hasMore` true exactly when `skip + limit < total`; an
all-defaults request uses limit 50, skip 0, and descending creation
time. -/
theorem C3_list_pagination (q : ListQuery) (s : Store) (ln kn : Nat)
    (hl : effLimit q = JsNum.int (Int.ofNat ln))
    (hk : effSkip q = JsNum.int (Int.ofNat kn)) :
    C3Post q s ln kn := by
  have hslice : applySkipLimit (effLimit q) (effSkip q)
      (sortDocs (effSortBy q) (sortDir (effSortOrder q)) s.docs) =
      ((sortDocs (effSortBy q) (sortDir (effSortOrder q)) s.docs).drop kn).take ln := by
    rw [hl, hk]
    unfold applySkipLimit
    simp
  have hinv : (listInvoices q s).1.invoices =
      (((sortDocs (effSortBy q) (sortDir (effSortOrder q)) s.docs).drop kn).take ln).map dropQR := by
    show (applySkipLimit (effLimit q) (effSkip q)
        (sortDocs (effSortBy q) (sortDir (effSortOrder q)) s.docs)).map dropQR = _
    rw [hslice]
  have hmore : jsLt (jsAdd (JsNum.int (Int.ofNat kn)) (JsNum.int (Int.ofNat ln)))
      (JsNum.int (Int.ofNat s.docs.length)) = decide (kn + ln < s.docs.length) := by
    unfold jsAdd jsLt
    rw [decide_eq_decide]
    simp only [Int.ofNat_eq_natCast]
    omega
  have hpag : (listInvoices q s).1.pagination =
      some { total := s.docs.length, limit := effLimit q, skip := effSkip q,
             hasMore := jsLt (jsAdd (effSkip q) (effLimit q))
               (JsNum.int (Int.ofNat s.docs.length)) } := rfl
  refine ⟨rfl, rfl, ?_, hinv, ?_, rfl, rfl, rfl, rfl, ?_⟩
  · rw [hinv, List.length_map]
    exact List.length_take_le _ _
  · rw [hpag, hl, hk, hmore]
  · have h := pairwise_desc_sortDocs s.docs
    have hsub : List.Sublist (((sortDocs "createdAt" (-1) s.docs).drop 0).take 50)
        (sortDocs "createdAt" (-1) s.docs) :=
      List.Sublist.trans (List.take_sublist _ _) (List.drop_sublist _ _)
    have hp : List.Pairwise (fun a b : StoredInvoice => b.createdAt ≤ a.createdAt)
        (((sortDocs "createdAt" (-1) s.docs).drop 0).take 50) :=
      List.Pairwise.sublist hsub h
    have hdef : (listInvoices { limit := none, skip := none, sortBy := none, sortOrder := none }
        s).1.invoices =
        (((sortDocs "createdAt" (-1) s.docs).drop 0).take 50).map dropQR := rfl
    rw [hdef]
    exact List.pairwise_map.mpr (List.Pairwise.imp (fun hab => hab) hp)

/-- Witness for C3 with limit 2, skip 1 on the three-document store. -/
theorem C3_list_pagination_witness :
    C3Post { limit := some "2", skip := some "1", sortBy := none, sortOrder := none } store3 2 1 :=
  C3_list_pagination _ store3 2 1 (by decide) (by decide)

/-! ### Claim C7 -/

/-- C7: a list request whose sortBy names no invoice attribute (the
field is missing on every document) still answers 200 with a page,
and the page is the skip/limit slice of the collection in natural
creation order — sorting on an all-missing field compares every pair
equal, so the stable sort leaves the order unchanged. -/
theorem C7_invalid_sortBy (q : ListQuery) (s : Store)
    (hf : ∀ d : StoredInvoice, getField d (effSortBy q) = FieldVal.missing) :
    C7Post q s := by
  have hrel : ∀ a b : StoredInvoice, sortRel (effSortBy q) (sortDir (effSortOrder q)) a b := by
    intro a b
    unfold sortRel
    rw [hf a, hf b]
    split <;> rfl
  have hsort : sortDocs (effSortBy q) (sortDir (effSortOrder q)) s.docs = s.docs :=
    insertionSort_of_forall hrel s.docs
  unfold C7Post listInvoices
  rw [hsort]
  exact ⟨rfl, rfl, rfl⟩

/-- Witness for C7 with an unknown sort field on the three-document
store. -/
theorem C7_invalid_sortBy_witness :
    C7Post { limit := none, skip := none, sortBy := some "bogusField", sortOrder := none } store3 :=
  C7_invalid_sortBy _ store3 (fun _ => rfl)

/-! ### Claim C9 -/

/-- C9: any present sortOrder other than the literal `desc` — `asc`,
arbitrary strings, the empty string — selects direction 1, an
ascending sort on the chosen field; the literal `desc`, which is also
the default for an absent parameter, selects -1. -/
theorem C9_sortOrder_asc (q : ListQuery) (s : Store) (v : String)
    (hv : q.sortOrder = some v) (hne : v ≠ "desc") :
    C9Post q s := by
  have hev : effSortOrder q = v := by unfold effSortOrder; rw [hv]
  have hdir : sortDir (effSortOrder q) = 1 := by
    unfold sortDir
    rw [hev, if_neg (by simpa using hne)]
  refine ⟨hdir, ?_, ?_, rfl, ?_⟩
  · unfold listInvoices
    rw [hdir]
  · intro w hw
    unfold sortDir
    rw [if_neg (by simpa using hw)]
  · intro q2 hq2
    unfold sortDir effSortOrder
    rw [hq2]
    simp

/-- Witness for C9 at sortOrder `asc`. -/
theorem C9_sortOrder_asc_witness :
    C9Post { limit := none, skip := none, sortBy := none, sortOrder := some "asc" } store3 :=
  C9_sortOrder_asc _ store3 "asc" rfl (by decide)

/-! ### Claim C10 -/

/-- C10: a present but unparseable limit (resp. skip) parses to NaN,
which the pagination metadata reports verbatim; `hasMore` is then
false since a comparison against NaN never holds, and the documented
default is not applied — defaults arise exactly from absent
parameters. -/
theorem C10_nan_pagination (q : ListQuery) (s : Store) : C10Post q s := by
  refine ⟨?_, ?_, ?_, ?_⟩
  · intro ls hls hnan
    have hl : effLimit q = JsNum.nan := by unfold effLimit; rw [hls]; exact hnan
    constructor
    · unfold listInvoices
      rw [hl]
      have hadd : jsAdd (effSkip q) JsNum.nan = JsNum.nan := by
        cases effSkip q <;> rfl
      rw [hadd]
      rfl
    · rw [hl]; simp
  · intro ks hks hnan
    have hk : effSkip q = JsNum.nan := by unfold effSkip; rw [hks]; exact hnan
    constructor
    · unfold listInvoices
      rw [hk]
      rfl
    · rw [hk]; simp
  · intro q2 hq2; unfold effLimit; rw [hq2]
  · intro q2 hq2; unfold effSkip; rw [hq2]

/-- Witness for C10: with `limit=abc&skip=xyz` both values are NaN,
the metadata reports them, `hasMore` is false and the default 50 is
not applied. -/
theorem C10_nan_pagination_witness :
    (listInvoices { limit := some "abc", skip := some "xyz", sortBy := none, sortOrder := none }
        store3).1.pagination =
      some { total := store3.docs.length, limit := JsNum.nan,
             skip := effSkip { limit := some "abc", skip := some "xyz", sortBy := none, sortOrder := none },
             hasMore := false } ∧
    effLimit { limit := some "abc", skip := some "xyz", sortBy := none, sortOrder := none } ≠
      JsNum.int 50 :=
  (C10_nan_pagination
      { limit := some "abc", skip := some "xyz", sortBy := none, sortOrder := none }
      store3).1 "abc" rfl (by decide)

/-! ### Claim C8 -/

/-- Every non-201 outcome of the create handler is a failure body:
`success:false` with an error string present. -/
theorem create_failure_shape (env : String) (newId now : Nat) (p : CreatePayload) (s : Store) :
    (createInvoice env newId now p s).1.status = 201 ∨
    ((createInvoice env newId now p s).1.success = false ∧
      (createInvoice env newId now p s).1.error.isSome = true) := by
  unfold createInvoice
  cases hb1 : requiredFieldsOk p with
  | false => exact Or.inr ⟨rfl, rfl⟩
  | true =>
    cases hb2 : itemsOk p.items with
    | false => exact Or.inr ⟨rfl, rfl⟩
    | true =>
      cases hf : findByNumber (p.invoiceNumber.getD "") s with
      | some d => exact Or.inr ⟨rfl, rfl⟩
      | none =>
        cases hs : saveStep newId now p s with
        | ok s' => exact Or.inl rfl
        | error e => cases e <;> exact Or.inr ⟨rfl, rfl⟩

/-- C8 as frozen is false: the create handler's ValidationError
branch copies the exception message into `details` unconditionally,
so in production-like mode two failures with different internal
messages produce different response bodies. -/
theorem C8_counterexample :
    (postCatchHandler "production" (JsError.validationError "subtotal is required")).details =
      some "subtotal is required" ∧
    postCatchHandler "production" (JsError.validationError "subtotal is required") ≠
      postCatchHandler "production" (JsError.validationError "total is required") := by
  decide

/-- C8 (amended): every failure response carries `success:false` and
an error string; outside development mode every 500-producing catch
path yields a body independent of the exception message (its
`details` is a fixed constant), so unexpected store failures with
different internal messages give identical production responses; but
`details` is not reserved to non-production modes — the create
handler's ValidationError branch copies the exception message into
`details` in every mode. -/
theorem C8_failure_bodies (env m1 m2 : String) (henv : env ≠ "development") :
    C8Post env m1 m2 := by
  have hbeq : (env == "development") = false := beq_eq_false_iff_ne.mpr henv
  refine ⟨?_, ?_, ?_, ?_, ?_, ?_, ?_, ?_, ?_, ?_, ?_, ?_, ?_, ?_⟩
  · unfold postCatchHandler; rw [hbeq]; exact rfl
  · unfold getCatchHandler; rw [hbeq]; exact rfl
  · unfold listCatchHandler; rw [hbeq]; exact rfl
  · unfold deleteCatchHandler; rw [hbeq]; exact rfl
  · unfold globalErrorHandler; rw [hbeq]; exact rfl
  · intro env2 e; cases e <;> exact ⟨rfl, rfl⟩
  · intro env2 m; exact ⟨rfl, rfl⟩
  · intro env2 m; exact ⟨rfl, rfl⟩
  · intro env2 m; exact ⟨rfl, rfl⟩
  · intro env2 m; exact ⟨rfl, rfl⟩
  · intro env2 newId now p s h201
    rcases create_failure_shape env2 newId now p s with h | h
    · exact absurd h h201
    · exact h
  · intro n s h404
    unfold getInvoice at h404 ⊢
    cases hf : findByNumber n s with
    | none => exact ⟨rfl, rfl⟩
    | some d => rw [hf] at h404; simp at h404
  · intro n s h404
    unfold deleteInvoice at h404 ⊢
    cases hf : findByNumber n s with
    | none => exact ⟨rfl, rfl⟩
    | some d => rw [hf] at h404; simp at h404
  · intro env2 m; rfl

/-- Witness for the amended C8 in production mode with two distinct
internal messages. -/
theorem C8_failure_bodies_witness : C8Post "production" "db down" "socket reset" :=
  C8_failure_bodies "production" "db down" "socket reset" (by decide)

end QrisBackend
